import Mathlib

/-!
Shallow embedding of the earnings-ledger core of `bot.py` (class `Database`).

Modelling conventions:
* SQLite tables become lists of rows inside an explicit `DB` state; an SQL
  `UPDATE ... WHERE p` is a `List.map` that rewrites exactly the rows
  satisfying `p`, an `INSERT` is an append, and a scalar subselect is a
  `List.find?` (SQLite returns the first matching row).
* `REAL` money amounts are modelled exactly as rationals (`Rat`); none of the
  verified properties depends on binary floating-point rounding.
* Timestamps are integer seconds (`Int`); the calendar date strings used by
  the daily-limit table are opaque `String`s, exactly as in the code.
* The `settings` table is seeded by `init_database` with the six fixed keys
  and rows are only ever replaced, never deleted, so it is modelled as a
  record with one numeric field per key (every reader in the code parses the
  stored text with `float`).
* A Python method that commits is a function `DB → ... × DB`; a method whose
  body can raise before committing returns `Option` (`none` = the exception
  propagates and every uncommitted statement of the call is rolled back,
  which is what closing a sqlite3 connection without `commit` does).
* Module-level `Config` constants (read from the environment at process
  start) are passed as an explicit `Config` value; `defaultConfig` holds the
  compiled-in defaults of the source.
-/

namespace NewEarn

/-- Money amounts (SQLite `REAL`), modelled exactly as rationals. -/
abbrev Amount := Rat

/-- The module-level `Config` class constants used by the ledger core. -/
structure Config where
  AD_EARNING_RATE : Amount
  REFERRAL_BONUS : Amount
  MINIMUM_WITHDRAWAL : Amount
  DAILY_EARNING_LIMIT : Amount
  AD_COOLDOWN_SECONDS : Nat
  MAX_ADS_PER_DAY : Nat
deriving DecidableEq

/-- The compiled-in defaults of `Config` in the source. -/
def defaultConfig : Config :=
  { AD_EARNING_RATE := 5
    REFERRAL_BONUS := 10
    MINIMUM_WITHDRAWAL := 100
    DAILY_EARNING_LIMIT := 50
    AD_COOLDOWN_SECONDS := 60
    MAX_ADS_PER_DAY := 10 }

/-- A row of the `users` table. -/
structure User where
  id : Nat
  telegram_id : Int
  username : String
  referral_code : String
  referred_by : Option Int
  balance : Amount
  total_earned : Amount
  total_withdrawn : Amount
  is_banned : Bool
deriving DecidableEq

/-- A row of the `earnings` table (the append-only audit trail). -/
structure Earning where
  user_id : Nat
  amount : Amount
  type : String
  description : String
deriving DecidableEq

/-- A row of the `withdrawals` table. -/
structure Withdrawal where
  id : Nat
  user_id : Nat
  amount : Amount
  method : String
  mobile_number : String
  status : String
  transaction_id : Option String
  processed_at : Option Int
deriving DecidableEq

/-- A row of the `ads` table. -/
structure Ad where
  id : Nat
  title : String
  description : String
  earnings : Amount
  is_active : Bool
deriving DecidableEq

/-- A row of the `user_ads` table (one per watched ad). -/
structure UserAd where
  user_id : Nat
  ad_id : Nat
  watched_at : Int
deriving DecidableEq

/-- A row of the `daily_limits` table, keyed by `(user_id, date)`. -/
structure DailyLimit where
  user_id : Nat
  date : String
  ads_watched : Nat
  earned_today : Amount
deriving DecidableEq

/-- The `settings` table after seeding: one numeric value per fixed key. -/
structure Settings where
  ad_earning_rate : Amount
  referral_bonus : Amount
  minimum_withdrawal : Amount
  daily_earning_limit : Amount
  max_ads_per_day : Amount
  ad_cooldown : Amount
deriving DecidableEq

/-- The six fixed setting keys accepted by the admin `/set` command. -/
inductive SettingKey where
  | ad_earning_rate
  | referral_bonus
  | minimum_withdrawal
  | daily_earning_limit
  | max_ads_per_day
  | ad_cooldown
deriving DecidableEq

/-- The whole durable state of the `Database` class. -/
structure DB where
  users : List User
  earnings : List Earning
  withdrawals : List Withdrawal
  ads : List Ad
  user_ads : List UserAd
  daily_limits : List DailyLimit
  settings : Settings
  next_user_id : Nat
  next_withdrawal_id : Nat
deriving DecidableEq

/-- `Database.add_referral_earning`: reads the `referral_bonus` setting,
adds it to the referrer's `balance` and `total_earned` (no ban filter in
the `UPDATE`), then inserts a `'referral'` earning row whose `user_id` is
the referrer's row id.  When the referrer row is absent the scalar
subselect yields `NULL` and the `NOT NULL` constraint on
`earnings.user_id` raises `IntegrityError` before the commit (`none`). -/
def add_referral_earning (s : DB) (referrer_id referred_id : Int) : Option DB :=
  let bonus := s.settings.referral_bonus
  let users' := s.users.map (fun u =>
    if u.telegram_id == referrer_id then
      { u with balance := u.balance + bonus, total_earned := u.total_earned + bonus }
    else u)
  match s.users.find? (fun u => u.telegram_id == referrer_id) with
  | none => none
  | some ref =>
      some { s with
              users := users',
              earnings := s.earnings ++
                [{ user_id := ref.id, amount := bonus, type := "referral",
                   description := "Referral: " ++ toString referred_id }] }

/-- `Database.register_user`: inserts the new user row (the fresh referral
code generated from `uuid` is passed in as a parameter) and, when
`referred_by` is truthy, pays the referral bonus via
`add_referral_earning`.  Any `IntegrityError` (duplicate `telegram_id` or
`referral_code`, or a failing bonus insert) is caught and the whole call
returns `False` with no committed effect. -/
def register_user (s : DB) (telegram_id : Int) (username : String)
    (referred_by : Option Int) (referral_code : String) : Bool × DB :=
  if s.users.any (fun u => u.telegram_id == telegram_id || u.referral_code == referral_code) then
    (false, s)
  else
    let newUser : User :=
      { id := s.next_user_id, telegram_id := telegram_id, username := username,
        referral_code := referral_code, referred_by := referred_by,
        balance := 0, total_earned := 0, total_withdrawn := 0, is_banned := false }
    let s1 := { s with users := s.users ++ [newUser], next_user_id := s.next_user_id + 1 }
    match referred_by with
    | none => (true, s1)
    | some r =>
        if r == 0 then (true, s1)
        else
          match add_referral_earning s1 r telegram_id with
          | none => (false, s)
          | some s2 => (true, s2)

/-- `Database.update_balance`: adds `amount` to both `balance` and
`total_earned` of every non-banned row with this `telegram_id`; the
returned flag is `rowcount > 0`. -/
def update_balance (s : DB) (telegram_id : Int) (amount : Amount) : Bool × DB :=
  let matched := s.users.any (fun u => u.telegram_id == telegram_id && !u.is_banned)
  let users' := s.users.map (fun u =>
    if u.telegram_id == telegram_id && !u.is_banned then
      { u with balance := u.balance + amount, total_earned := u.total_earned + amount }
    else u)
  (matched, { s with users := users' })

/-- Result record of `Database.get_referral_stats`. -/
structure ReferralStats where
  total : Nat
  active : Nat
  earnings : Amount
deriving DecidableEq

/-- `Database.get_referral_stats`: `{0, 0, 0}` when the user row is absent;
otherwise counts rows whose `referred_by` equals this user's row id,
the distinct such rows owning at least one earning, and the sum of this
user's `'referral'` earnings. -/
def get_referral_stats (s : DB) (telegram_id : Int) : ReferralStats :=
  match s.users.find? (fun u => u.telegram_id == telegram_id) with
  | none => { total := 0, active := 0, earnings := 0 }
  | some user =>
      let uid := user.id
      let total := (s.users.filter (fun u => u.referred_by == some (Int.ofNat uid))).length
      let active := (s.users.filter (fun u =>
        u.referred_by == some (Int.ofNat uid) &&
          s.earnings.any (fun e => e.user_id == u.id))).length
      let refEarnings := ((s.earnings.filter (fun e =>
        e.user_id == uid && e.type == "referral")).map Earning.amount).sum
      { total := total, active := active, earnings := refEarnings }

/-- `Database.can_watch_ad`: looks up the user, then today's
`daily_limits` row, compares it against the stored `max_ads_per_day` and
`daily_earning_limit` settings only when the row exists, and finally
checks the cooldown against `MAX(watched_at)` of the user's `user_ads`
rows joined to `ads` — using the compile-time
`Config.AD_COOLDOWN_SECONDS`, not the stored `ad_cooldown` setting. -/
def can_watch_ad (cfg : Config) (s : DB) (telegram_id : Int)
    (today : String) (now : Int) : Bool × String :=
  match s.users.find? (fun u => u.telegram_id == telegram_id) with
  | none => (false, "User not found")
  | some user =>
      let uid := user.id
      let limit := s.daily_limits.find? (fun d => d.user_id == uid && d.date == today)
      let cooldownCheck : Bool × String :=
        let watched := ((s.user_ads.filter (fun ua =>
          ua.user_id == uid && s.ads.any (fun a => a.id == ua.ad_id))).map
            UserAd.watched_at)
        match watched with
        | [] => (true, "")
        | t :: ts =>
            let last_time := ts.foldl max t
            if now - last_time < (cfg.AD_COOLDOWN_SECONDS : Int) then
              (false, "Wait " ++ toString cfg.AD_COOLDOWN_SECONDS ++ " seconds between ads")
            else (true, "")
      match limit with
      | some l =>
          if (l.ads_watched : Amount) ≥ s.settings.max_ads_per_day then
            (false, "Daily ad limit reached")
          else if l.earned_today ≥ s.settings.daily_earning_limit then
            (false, "Daily earning limit reached")
          else cooldownCheck
      | none => cooldownCheck

/-- `Database.create_withdrawal`: refuses below the stored
`minimum_withdrawal` or above the current balance; otherwise deducts the
amount from every row with this `telegram_id` (no ban filter) and inserts
a `'pending'` withdrawal row.  When the user row is absent the balance
fetch subscripts `None` and the call raises (`none`). -/
def create_withdrawal (s : DB) (telegram_id : Int) (amount : Amount)
    (method mobile : String) : Option (Bool × DB) :=
  let min_withdrawal := s.settings.minimum_withdrawal
  if amount < min_withdrawal then some (false, s)
  else
    match s.users.find? (fun u => u.telegram_id == telegram_id) with
    | none => none
    | some user =>
        if amount > user.balance then some (false, s)
        else
          let users' := s.users.map (fun u =>
            if u.telegram_id == telegram_id then
              { u with balance := u.balance - amount }
            else u)
          let w : Withdrawal :=
            { id := s.next_withdrawal_id, user_id := user.id, amount := amount,
              method := method, mobile_number := mobile, status := "pending",
              transaction_id := none, processed_at := none }
          some (true, { s with
                         users := users',
                         withdrawals := s.withdrawals ++ [w],
                         next_withdrawal_id := s.next_withdrawal_id + 1 })

/-- `Database.update_withdrawal_status`: unconditionally overwrites
`status`, `transaction_id` and `processed_at` of the row with this id
(there is no check of the previous status), and when the new status is
`'rejected'` credits the withdrawal's amount back to the owning user row.
`total_withdrawn` is never touched. -/
def update_withdrawal_status (s : DB) (withdrawal_id : Nat) (status : String)
    (transaction_id : Option String) (now : Int) : DB :=
  let withdrawals' := s.withdrawals.map (fun w =>
    if w.id == withdrawal_id then
      { w with status := status, transaction_id := transaction_id, processed_at := some now }
    else w)
  let s1 := { s with withdrawals := withdrawals' }
  if status == "rejected" then
    match s1.withdrawals.find? (fun w => w.id == withdrawal_id) with
    | none => s1
    | some w =>
        { s1 with users := s1.users.map (fun u =>
            if u.id == w.user_id then { u with balance := u.balance + w.amount } else u) }
  else s1

/-- `Database.update_setting`: `INSERT OR REPLACE` of one of the six
seeded keys. -/
def update_setting (s : DB) (key : SettingKey) (value : Amount) : DB :=
  match key with
  | .ad_earning_rate => { s with settings := { s.settings with ad_earning_rate := value } }
  | .referral_bonus => { s with settings := { s.settings with referral_bonus := value } }
  | .minimum_withdrawal => { s with settings := { s.settings with minimum_withdrawal := value } }
  | .daily_earning_limit => { s with settings := { s.settings with daily_earning_limit := value } }
  | .max_ads_per_day => { s with settings := { s.settings with max_ads_per_day := value } }
  | .ad_cooldown => { s with settings := { s.settings with ad_cooldown := value } }

/-- The balance the `users` table stores for an external id (sum over the
matching rows, so that it is well defined even before uniqueness of
`telegram_id` is used). -/
def balanceOf (s : DB) (telegram_id : Int) : Amount :=
  ((s.users.filter (fun u => u.telegram_id == telegram_id)).map User.balance).sum

/-- The stored `total_earned` for an external id. -/
def totalEarnedOf (s : DB) (telegram_id : Int) : Amount :=
  ((s.users.filter (fun u => u.telegram_id == telegram_id)).map User.total_earned).sum

/-- The stored `total_withdrawn` for an external id. -/
def totalWithdrawnOf (s : DB) (telegram_id : Int) : Amount :=
  ((s.users.filter (fun u => u.telegram_id == telegram_id)).map User.total_withdrawn).sum

/-! ## Concrete states for counterexamples, failing inputs and witnesses -/

/-- The seeded settings row values (the compiled-in defaults). -/
def sett0 : Settings :=
  { ad_earning_rate := 5, referral_bonus := 10, minimum_withdrawal := 100,
    daily_earning_limit := 50, max_ads_per_day := 10, ad_cooldown := 60 }

/-- A single non-banned user (telegram id 100) with balance 0. -/
def c1User : User :=
  { id := 1, telegram_id := 100, username := "alice", referral_code := "RC1",
    referred_by := none, balance := 0, total_earned := 50, total_withdrawn := 0,
    is_banned := false }

/-- A withdrawal of amount 50 that is already in status `rejected`
(its amount has already been credited back once). -/
def c1Withdrawal : Withdrawal :=
  { id := 1, user_id := 1, amount := 50, method := "bKash", mobile_number := "017",
    status := "rejected", transaction_id := none, processed_at := some 1 }

/-- State in which withdrawal 1 is already rejected; balance 0 is the
post-first-refund ground truth for the double-apply experiment. -/
def c1DB : DB :=
  { users := [c1User], earnings := [], withdrawals := [c1Withdrawal], ads := [],
    user_ads := [], daily_limits := [], settings := sett0,
    next_user_id := 2, next_withdrawal_id := 2 }

/-- A non-banned user with balance 50. -/
def c2User : User :=
  { id := 1, telegram_id := 100, username := "alice", referral_code := "RC1",
    referred_by := none, balance := 50, total_earned := 50, total_withdrawn := 0,
    is_banned := false }

/-- State for the negative-delta experiment on `update_balance`. -/
def c2DB : DB :=
  { users := [c2User], earnings := [], withdrawals := [], ads := [],
    user_ads := [], daily_limits := [], settings := sett0,
    next_user_id := 2, next_withdrawal_id := 1 }

/-- A user who owns an approved withdrawal of amount 100; the 100 is
already escrowed out of the balance. -/
def c3User : User :=
  { id := 1, telegram_id := 100, username := "alice", referral_code := "RC1",
    referred_by := none, balance := 0, total_earned := 100, total_withdrawn := 0,
    is_banned := false }

/-- An approved withdrawal of amount 100 awaiting `markPaid`. -/
def c3Withdrawal : Withdrawal :=
  { id := 1, user_id := 1, amount := 100, method := "bKash", mobile_number := "017",
    status := "approved", transaction_id := none, processed_at := some 1 }

/-- State for the `markPaid` experiment. -/
def c3DB : DB :=
  { users := [c3User], earnings := [], withdrawals := [c3Withdrawal], ads := [],
    user_ads := [], daily_limits := [], settings := sett0,
    next_user_id := 2, next_withdrawal_id := 2 }

/-- A non-banned user for the cooldown experiment. -/
def c4User : User :=
  { id := 1, telegram_id := 100, username := "alice", referral_code := "RC1",
    referred_by := none, balance := 0, total_earned := 0, total_withdrawn := 0,
    is_banned := false }

/-- An active ad row. -/
def c4Ad : Ad :=
  { id := 1, title := "t", description := "d", earnings := 5, is_active := true }

/-- State in which user 1 watched ad 1 at time 0 and has no daily-limit
row yet. -/
def c4DB : DB :=
  { users := [c4User], earnings := [], withdrawals := [], ads := [c4Ad],
    user_ads := [{ user_id := 1, ad_id := 1, watched_at := 0 }], daily_limits := [],
    settings := sett0, next_user_id := 2, next_withdrawal_id := 1 }

/-- A banned referrer (telegram id 1) with balance 0. -/
def c5Referrer : User :=
  { id := 1, telegram_id := 1, username := "ref", referral_code := "RCA",
    referred_by := none, balance := 0, total_earned := 0, total_withdrawn := 0,
    is_banned := true }

/-- State containing only the banned referrer. -/
def c5DB : DB :=
  { users := [c5Referrer], earnings := [], withdrawals := [], ads := [],
    user_ads := [], daily_limits := [], settings := sett0,
    next_user_id := 2, next_withdrawal_id := 1 }

/-- Settings with `max_ads_per_day` stored as 0. -/
def c6Settings : Settings :=
  { ad_earning_rate := 5, referral_bonus := 10, minimum_withdrawal := 100,
    daily_earning_limit := 50, max_ads_per_day := 0, ad_cooldown := 60 }

/-- A non-banned user with no daily-limit row and no watched ads. -/
def c6User : User :=
  { id := 1, telegram_id := 100, username := "alice", referral_code := "RC1",
    referred_by := none, balance := 0, total_earned := 0, total_withdrawn := 0,
    is_banned := false }

/-- State for the absent-daily-counter experiment with a zero ad cap. -/
def c6DB : DB :=
  { users := [c6User], earnings := [], withdrawals := [], ads := [],
    user_ads := [], daily_limits := [], settings := c6Settings,
    next_user_id := 2, next_withdrawal_id := 1 }

/-- A non-banned user with `total_earned = 10`. -/
def c8User : User :=
  { id := 1, telegram_id := 100, username := "alice", referral_code := "RC1",
    referred_by := none, balance := 20, total_earned := 10, total_withdrawn := 0,
    is_banned := false }

/-- State for the negative-delta `total_earned` experiment. -/
def c8DB : DB :=
  { users := [c8User], earnings := [], withdrawals := [], ads := [],
    user_ads := [], daily_limits := [], settings := sett0,
    next_user_id := 2, next_withdrawal_id := 1 }

/-- A non-banned referrer (telegram id 7) used to instantiate the
referral theorems. -/
def wReferrer : User :=
  { id := 1, telegram_id := 7, username := "ref", referral_code := "RCR",
    referred_by := none, balance := 3, total_earned := 3, total_withdrawn := 0,
    is_banned := false }

/-- Witness state for the referral-credit theorem. -/
def w5DB : DB :=
  { users := [wReferrer], earnings := [], withdrawals := [], ads := [],
    user_ads := [], daily_limits := [], settings := sett0,
    next_user_id := 2, next_withdrawal_id := 1 }

/-- A non-banned user at the daily ad cap. -/
def w6User : User :=
  { id := 1, telegram_id := 100, username := "w6", referral_code := "RC6",
    referred_by := none, balance := 0, total_earned := 0, total_withdrawn := 0,
    is_banned := false }

/-- A daily counter row at the cap (10 ads, 50 earned). -/
def w6Limit : DailyLimit :=
  { user_id := 1, date := "2026-10-12", ads_watched := 10, earned_today := 50 }

/-- Witness state for the daily-limit characterization. -/
def w6DB : DB :=
  { users := [w6User], earnings := [], withdrawals := [], ads := [],
    user_ads := [], daily_limits := [w6Limit], settings := sett0,
    next_user_id := 2, next_withdrawal_id := 1 }

/-- A non-banned user with balance 150. -/
def w7User : User :=
  { id := 1, telegram_id := 100, username := "w7", referral_code := "RC7",
    referred_by := none, balance := 150, total_earned := 150, total_withdrawn := 0,
    is_banned := false }

/-- Witness state for the create-then-reject round trip. -/
def w7DB : DB :=
  { users := [w7User], earnings := [], withdrawals := [], ads := [],
    user_ads := [], daily_limits := [], settings := sett0,
    next_user_id := 2, next_withdrawal_id := 1 }

/-- The state `create_withdrawal w7DB 100 120 "bKash" "017"` commits:
balance escrowed down to 30 and a pending withdrawal row of 120. -/
def w7After : DB :=
  { users := [{ id := 1, telegram_id := 100, username := "w7", referral_code := "RC7",
                referred_by := none, balance := 30, total_earned := 150,
                total_withdrawn := 0, is_banned := false }],
    earnings := [], withdrawals :=
      [{ id := 1, user_id := 1, amount := 120, method := "bKash", mobile_number := "017",
         status := "pending", transaction_id := none, processed_at := none }],
    ads := [], user_ads := [], daily_limits := [], settings := sett0,
    next_user_id := 2, next_withdrawal_id := 2 }

/-- A non-banned user with balance 20 and `total_earned` 10, for the
delta-application witness. -/
def w8User : User :=
  { id := 1, telegram_id := 100, username := "w8", referral_code := "RC8",
    referred_by := none, balance := 20, total_earned := 10, total_withdrawn := 0,
    is_banned := false }

/-- Witness state for the delta-application theorem. -/
def w8DB : DB :=
  { users := [w8User], earnings := [], withdrawals := [], ads := [],
    user_ads := [], daily_limits := [], settings := sett0,
    next_user_id := 2, next_withdrawal_id := 1 }

/-- A non-banned referrer (telegram id 9) for the retry witness. -/
def w9Referrer : User :=
  { id := 1, telegram_id := 9, username := "r9", referral_code := "RC9",
    referred_by := none, balance := 0, total_earned := 0, total_withdrawn := 0,
    is_banned := false }

/-- Witness state for the duplicate-retry theorem. -/
def w9DB : DB :=
  { users := [w9Referrer], earnings := [], withdrawals := [], ads := [],
    user_ads := [], daily_limits := [], settings := sett0,
    next_user_id := 2, next_withdrawal_id := 1 }

/-- A registered user with no referrals and no earnings. -/
def w10User : User :=
  { id := 1, telegram_id := 100, username := "w10", referral_code := "RC10",
    referred_by := none, balance := 0, total_earned := 0, total_withdrawn := 0,
    is_banned := false }

/-- Witness state for the referral-stats theorem. -/
def w10DB : DB :=
  { users := [w10User], earnings := [], withdrawals := [], ads := [],
    user_ads := [], daily_limits := [], settings := sett0,
    next_user_id := 2, next_withdrawal_id := 1 }

/-! ## Generic helper lemmas about the list model of SQL statements -/

/-- A filter returning one row means `find?` (the scalar subselect) hits
exactly that row. -/
theorem find?_of_filter_eq_single {α : Type} (p : α → Bool) (l : List α) (u : α)
    (h : l.filter p = [u]) : l.find? p = some u := by
  induction l with
  | nil => simp at h
  | cons a t ih =>
      cases hp : p a with
      | true =>
          rw [List.filter_cons_of_pos hp] at h
          obtain ⟨rfl, -⟩ := List.cons_eq_cons.mp h
          simp [List.find?_cons_of_pos, hp]
      | false =>
          rw [List.filter_cons_of_neg (by simp [hp])] at h
          simpa [List.find?_cons_of_neg, hp] using ih h

/-- An `UPDATE` whose row function does not change the filtered columns
commutes with the filter. -/
theorem filter_map_comm {α : Type} (g : α → α) (p : α → Bool)
    (hg : ∀ a, p (g a) = p a) (l : List α) :
    (l.map g).filter p = (l.filter p).map g := by
  induction l with
  | nil => rfl
  | cons a t ih =>
      cases hp : p a with
      | true => simp [List.filter_cons, hg a, hp, ih]
      | false => simp [List.filter_cons, hg a, hp, ih]

/-- Computation of `register_user` with a truthy referrer that resolves:
the new row is inserted, every row carrying the referrer's telegram id is
credited with the current `referral_bonus`, and one `referral` earning
row for the first matching referrer row is appended. -/
theorem register_user_referred_eq (s : DB) (tid : Int) (un rc : String) (r : Int) (a : User)
    (hfresh : s.users.any (fun u => u.telegram_id == tid || u.referral_code == rc) = false)
    (hr0 : (r == 0) = false)
    (hfind : s.users.find? (fun u => u.telegram_id == r) = some a) :
    register_user s tid un (some r) rc =
      (true,
       { s with
         users := (s.users ++
           [({ id := s.next_user_id, telegram_id := tid, username := un,
               referral_code := rc, referred_by := some r, balance := 0,
               total_earned := 0, total_withdrawn := 0, is_banned := false } : User)]).map
           (fun u : User => if u.telegram_id == r then
              { u with
                  balance := u.balance + s.settings.referral_bonus,
                  total_earned := u.total_earned + s.settings.referral_bonus }
            else u),
         earnings := s.earnings ++
           [{ user_id := a.id, amount := s.settings.referral_bonus,
              type := "referral", description := "Referral: " ++ toString tid }],
         next_user_id := s.next_user_id + 1 }) := by
  simp only [register_user, hfresh, Bool.false_eq_true, if_false,
    add_referral_earning, List.find?_append, hfind, Option.or, hr0]

/-- A registration that hits an existing `telegram_id` or
`referral_code` fails immediately with the state unchanged. -/
theorem register_user_duplicate (s : DB) (tid : Int) (un rc : String) (rb : Option Int)
    (h : s.users.any (fun u => u.telegram_id == tid || u.referral_code == rc) = true) :
    register_user s tid un rb rc = (false, s) := by
  simp [register_user, h]

/-- Main consequence of `register_user_referred_eq`: a successful
registration with a resolving referrer reports success, credits the
referrer's balance with the stored bonus and appends exactly one
`referral` earning row. -/
theorem register_user_credits (s : DB) (tid : Int) (un rc : String) (r : Int) (a : User)
    (ha : s.users.filter (fun u => u.telegram_id == r) = [a])
    (hfresh : s.users.any (fun u => u.telegram_id == tid || u.referral_code == rc) = false)
    (hr0 : r ≠ 0) (hrt : r ≠ tid) :
    (register_user s tid un (some r) rc).1 = true ∧
    balanceOf (register_user s tid un (some r) rc).2 r
      = balanceOf s r + s.settings.referral_bonus ∧
    (register_user s tid un (some r) rc).2.earnings
      = s.earnings ++
          [{ user_id := a.id, amount := s.settings.referral_bonus,
             type := "referral", description := "Referral: " ++ toString tid }] := by
  have hr0' : (r == 0) = false := by simpa using hr0
  have hrt' : (tid == r) = false := by simpa using Ne.symm hrt
  have hfind := find?_of_filter_eq_single _ _ _ ha
  have hpa : (a.telegram_id == r) = true := by
    have hm : a ∈ s.users.filter (fun u => u.telegram_id == r) := by
      rw [ha]; exact List.mem_cons_self a []
    exact (List.mem_filter.mp hm).2
  rw [register_user_referred_eq s tid un rc r a hfresh hr0' hfind]
  refine ⟨rfl, ?_, rfl⟩
  have hg : ∀ u : User,
      (((fun u : User => if u.telegram_id == r then
          { u with
              balance := u.balance + s.settings.referral_bonus,
              total_earned := u.total_earned + s.settings.referral_bonus }
        else u) u).telegram_id == r) = (u.telegram_id == r) := by
    intro u
    by_cases h : (u.telegram_id == r) = true <;> simp [h]
  simp only [balanceOf]
  rw [filter_map_comm _ _ hg, List.filter_append, ha]
  have hpa' : a.telegram_id = r := by simpa using hpa
  simp [hrt', hpa']

/-! ## Claim theorems -/

/-- C1: re-invoking the status update with `rejected` on an
already-rejected withdrawal does not fail: it silently credits the
amount back to the owner a second time (balance 0 becomes 50), where the
claim requires a `NotPending` error and an unchanged balance.  The
operation's type (`DB`, not an error sum) already shows no failure path
exists in the code. -/
theorem c1_second_reject_credits_again :
    balanceOf c1DB 100 = 0 ∧
    balanceOf (update_withdrawal_status c1DB 1 "rejected" none 5) 100 = 50 := by
  constructor
  · simp [balanceOf, c1DB, c1User]
  · simp [update_withdrawal_status, balanceOf, c1DB, c1User, c1Withdrawal, List.find?]

/-- C2: `update_balance` applies a negative delta that drives the balance
below zero, reporting success instead of refusing: balance 50 plus delta
−100 yields the stored balance −50 < 0, where the claim requires an
error and an unchanged, non-negative balance. -/
theorem c2_update_balance_drives_balance_negative :
    (update_balance c2DB 100 (-100)).1 = true ∧
    balanceOf (update_balance c2DB 100 (-100)).2 100 = -50 ∧
    ((-50 : Amount) < 0) := by
  refine ⟨by simp [update_balance, c2DB, c2User], ?_, by norm_num⟩
  simp [update_balance, balanceOf, c2DB, c2User]
  norm_num

/-- C3: marking an approved withdrawal of amount 100 as `paid` sets the
status but leaves `total_withdrawn` at 0 (the code never writes that
column anywhere), where the claim requires it to grow by exactly the
amount; the balance does stay at its escrowed value. -/
theorem c3_markPaid_leaves_total_withdrawn_unchanged :
    totalWithdrawnOf c3DB 100 = 0 ∧
    totalWithdrawnOf (update_withdrawal_status c3DB 1 "paid" (some "tx99") 5) 100 = 0 ∧
    balanceOf (update_withdrawal_status c3DB 1 "paid" (some "tx99") 5) 100 = balanceOf c3DB 100 ∧
    ((update_withdrawal_status c3DB 1 "paid" (some "tx99") 5).withdrawals.map
      Withdrawal.status) = ["paid"] := by
  refine ⟨by simp [totalWithdrawnOf, c3DB, c3User], ?_, ?_, ?_⟩ <;>
    simp [update_withdrawal_status, totalWithdrawnOf, balanceOf, c3DB, c3User, c3Withdrawal]

/-- C4: the cooldown decision ignores the stored `ad_cooldown` setting
and uses the compile-time `Config.AD_COOLDOWN_SECONDS` (60) instead.
After storing cooldown 0, a request 30 s after the last reward is still
denied (the claim requires it to be allowed, since 30 ≥ 0); after
storing cooldown 1000, a request 90 s after the last reward is allowed
(the claim requires denial, since 90 < 1000). -/
theorem c4_cooldown_ignores_ad_cooldown_setting :
    (can_watch_ad defaultConfig (update_setting c4DB .ad_cooldown 0) 100 "2026-10-12" 30).1
      = false ∧
    (can_watch_ad defaultConfig (update_setting c4DB .ad_cooldown 1000) 100 "2026-10-12" 90).1
      = true := by
  constructor <;>
    simp [can_watch_ad, update_setting, defaultConfig, c4DB, c4User, c4Ad, sett0, List.find?]

/-- C5 counterexample: registering telegram id 2 with `referred_by` the
banned account 1 succeeds and credits the banned referrer with the
bonus 10 and a `referral` earning event, where the claim requires no
credit and no event for a banned referrer. -/
theorem c5_counterexample_banned_referrer_credited :
    (register_user c5DB 2 "bob" (some 1) "RCB").1 = true ∧
    balanceOf (register_user c5DB 2 "bob" (some 1) "RCB").2 1 = 10 ∧
    ((register_user c5DB 2 "bob" (some 1) "RCB").2.earnings.filter
      (fun e => e.type == "referral")).length = 1 := by
  refine ⟨?_, ?_, ?_⟩ <;>
    simp [register_user, add_referral_earning, balanceOf, c5DB, c5Referrer, sett0, List.find?]

/-- C5 (amended): during registration with a truthy `referred_by`, the
referral bonus is credited and a `referral` earning event appended if
and only if a referrer row with that telegram id exists — regardless of
its ban flag; when the referrer is absent, the earning insert violates
`NOT NULL`, the whole registration rolls back and returns failure, so no
credit and no event (and no account) are produced. -/
theorem c5_referral_credit_iff_referrer_exists (s : DB) (tid : Int) (un rc : String) (r : Int)
    (hfresh : s.users.any (fun u => u.telegram_id == tid || u.referral_code == rc) = false)
    (hr0 : r ≠ 0) (hrt : r ≠ tid) :
    (∀ a, s.users.filter (fun u => u.telegram_id == r) = [a] →
      (register_user s tid un (some r) rc).1 = true ∧
      balanceOf (register_user s tid un (some r) rc).2 r
        = balanceOf s r + s.settings.referral_bonus ∧
      (register_user s tid un (some r) rc).2.earnings
        = s.earnings ++
            [{ user_id := a.id, amount := s.settings.referral_bonus,
               type := "referral", description := "Referral: " ++ toString tid }]) ∧
    (s.users.filter (fun u => u.telegram_id == r) = [] →
      register_user s tid un (some r) rc = (false, s)) := by
  have hr0' : (r == 0) = false := by simpa using hr0
  have hrt' : (tid == r) = false := by simpa using Ne.symm hrt
  constructor
  · intro a ha
    exact register_user_credits s tid un rc r a ha hfresh hr0 hrt
  · intro hnil
    have hnone : s.users.find? (fun u => u.telegram_id == r) = none :=
      List.find?_eq_none.mpr (by
        intro x hx
        simpa using List.filter_eq_nil_iff.mp hnil x hx)
    simp [register_user, hfresh, add_referral_earning, List.find?_append, hnone,
      Option.or, List.find?, hrt', hr0']

/-- Witness for the referral-credit theorem: referrer telegram id 7
exists in `w5DB` (credit path) while telegram id 6 does not (rollback
path). -/
theorem c5_witness :
    ((register_user w5DB 8 "w" (some 7) "RCW").1 = true ∧
      balanceOf (register_user w5DB 8 "w" (some 7) "RCW").2 7
        = balanceOf w5DB 7 + w5DB.settings.referral_bonus) ∧
    register_user w5DB 5 "v" (some 6) "RCV" = (false, w5DB) := by
  have h := c5_referral_credit_iff_referrer_exists w5DB 8 "w" "RCW" 7
    (by simp [w5DB, wReferrer]) (by decide) (by decide)
  have h2 := c5_referral_credit_iff_referrer_exists w5DB 5 "v" "RCV" 6
    (by simp [w5DB, wReferrer]) (by decide) (by decide)
  have hf : w5DB.users.filter (fun u => u.telegram_id == 7) = [wReferrer] := by
    simp [w5DB, wReferrer]
  have hn : w5DB.users.filter (fun u => u.telegram_id == 6) = [] := by
    simp [w5DB, wReferrer]
  exact ⟨⟨(h.1 wReferrer hf).1, (h.1 wReferrer hf).2.1⟩, h2.2 hn⟩

/-- C6 counterexample: with `max_ads_per_day = 0` and no daily counter
row for today, `can_watch_ad` allows the reward, where the claim
(absent counter ⇒ `ads_watched = 0`, and `0 ≥ 0` caps the day) requires
denial.  The code skips the daily-limit comparisons entirely whenever
the counter row is absent. -/
theorem c6_counterexample_absent_counter_zero_cap_allowed :
    can_watch_ad defaultConfig c6DB 100 "2026-10-12" 500 = (true, "") ∧
    c6DB.settings.max_ads_per_day = 0 := by
  constructor
  · simp [can_watch_ad, c6DB, c6User, c6Settings, List.find?]
  · simp [c6DB, c6Settings]

/-- C6 (amended): when the user row exists and the cooldown does not
apply (the user has no joined `user_ads` row), `can_watch_ad` denies
exactly when a daily counter row for today exists whose `ads_watched`
reaches `max_ads_per_day` or whose `earned_today` reaches
`daily_earning_limit` under the currently stored settings.  An absent
counter row skips the daily checks entirely instead of counting as
zero, so a zero cap does not deny a counter-less account. -/
theorem c6_daily_limit_denial_characterization
    (cfg : Config) (s : DB) (tid : Int) (today : String) (now : Int) (u : User)
    (hu : s.users.find? (fun v => v.telegram_id == tid) = some u)
    (hcd : s.user_ads.filter (fun ua =>
      ua.user_id == u.id && s.ads.any (fun a => a.id == ua.ad_id)) = []) :
    (can_watch_ad cfg s tid today now).1 = false ↔
      ∃ l, s.daily_limits.find? (fun d => d.user_id == u.id && d.date == today) = some l ∧
        ((l.ads_watched : Amount) ≥ s.settings.max_ads_per_day ∨
          l.earned_today ≥ s.settings.daily_earning_limit) := by
  simp only [can_watch_ad, hu, hcd, List.map_nil]
  cases hl : s.daily_limits.find? (fun d => d.user_id == u.id && d.date == today) with
  | none => simp
  | some l =>
      by_cases h1 : (l.ads_watched : Amount) ≥ s.settings.max_ads_per_day
      · simp [h1]
      · by_cases h2 : l.earned_today ≥ s.settings.daily_earning_limit
        · simp [h1, h2]
        · simp [h1, h2]

/-- Witness for the daily-limit characterization: in `w6DB` the counter
row sits exactly at the ad cap (10 of 10), so the request is denied. -/
theorem c6_witness :
    (can_watch_ad defaultConfig w6DB 100 "2026-10-12" 999).1 = false := by
  have h := c6_daily_limit_denial_characterization defaultConfig w6DB 100 "2026-10-12" 999 w6User
    (by simp [w6DB, w6User, List.find?]) (by simp [w6DB])
  refine h.mpr ⟨w6Limit, ?_, Or.inl ?_⟩
  · simp [w6DB, w6Limit, w6User, List.find?]
  · simp [w6Limit, w6DB, sett0]

/-- C7: a withdrawal request that `create_withdrawal` accepts, followed
by a single rejection of the freshly created withdrawal row, restores
the account's balance to exactly its pre-request value. -/
theorem c7_reject_restores_balance
    (s : DB) (tid : Int) (X : Amount) (m mb : String) (tx : Option String) (now : Int)
    (u : User) (s1 : DB)
    (hu : s.users.filter (fun v => v.telegram_id == tid) = [u])
    (hw : ∀ w ∈ s.withdrawals, w.id ≠ s.next_withdrawal_id)
    (hcr : create_withdrawal s tid X m mb = some (true, s1)) :
    balanceOf (update_withdrawal_status s1 s.next_withdrawal_id "rejected" tx now) tid
      = balanceOf s tid := by
  have hfind := find?_of_filter_eq_single _ _ _ hu
  have hpu : (u.telegram_id == tid) = true := by
    have hm : u ∈ s.users.filter (fun v => v.telegram_id == tid) := by
      rw [hu]; exact List.mem_cons_self u []
    exact (List.mem_filter.mp hm).2
  by_cases h1 : X < s.settings.minimum_withdrawal
  · simp [create_withdrawal, h1] at hcr
  · by_cases h2 : X > u.balance
    · simp [create_withdrawal, h1, hfind, h2] at hcr
    · simp only [create_withdrawal, h1, hfind, h2, if_false, Option.some.injEq,
        Prod.mk.injEq, true_and] at hcr
      subst hcr
      have hfw : (((s.withdrawals ++
          [({ id := s.next_withdrawal_id, user_id := u.id, amount := X, method := m,
              mobile_number := mb, status := "pending", transaction_id := none,
              processed_at := none } : Withdrawal)]).map (fun w =>
            if w.id == s.next_withdrawal_id then
              { w with status := "rejected", transaction_id := tx, processed_at := some now }
            else w)).find? (fun w => w.id == s.next_withdrawal_id))
          = some ({ id := s.next_withdrawal_id, user_id := u.id, amount := X,
                    method := m, mobile_number := mb, status := "rejected",
                    transaction_id := tx, processed_at := some now } : Withdrawal) := by
        rw [List.map_append, List.find?_append]
        have hn : (s.withdrawals.map (fun w =>
            if w.id == s.next_withdrawal_id then
              { w with status := "rejected", transaction_id := tx, processed_at := some now }
            else w)).find? (fun w => w.id == s.next_withdrawal_id) = none := by
          apply List.find?_eq_none.mpr
          intro x hx
          obtain ⟨w', hw', rfl⟩ := List.mem_map.mp hx
          have hne : (w'.id == s.next_withdrawal_id) = false := by simpa using hw w' hw'
          simp [hne]
        rw [hn]
        simp [List.find?]
      simp only [update_withdrawal_status, hfw, beq_self_eq_true, if_true]
      have hg1 : ∀ v : User, (((fun v : User => if v.telegram_id == tid then
          { v with balance := v.balance - X } else v) v).telegram_id == tid)
          = (v.telegram_id == tid) := by
        intro v; by_cases h : (v.telegram_id == tid) = true <;> simp [h]
      have hg2 : ∀ v : User, (((fun v : User => if v.id == u.id then
          { v with balance := v.balance + X } else v) v).telegram_id == tid)
          = (v.telegram_id == tid) := by
        intro v; by_cases h : (v.id == u.id) = true <;> simp [h]
      simp only [balanceOf]
      rw [filter_map_comm _ _ hg2, filter_map_comm _ _ hg1, hu]
      have hpu' : u.telegram_id = tid := by simpa using hpu
      simp [hpu']

/-- C8 counterexample: `update_balance` with delta −5 succeeds and drags
`total_earned` down from 10 to 5, where the claim requires
`total_earned` to stay unchanged for non-positive deltas (monotonic
non-decrease). -/
theorem c8_counterexample_total_earned_decreases :
    totalEarnedOf c8DB 100 = 10 ∧
    (update_balance c8DB 100 (-5)).1 = true ∧
    totalEarnedOf (update_balance c8DB 100 (-5)).2 100 = 5 := by
  refine ⟨by simp [totalEarnedOf, c8DB, c8User], by simp [update_balance, c8DB, c8User], ?_⟩
  simp [update_balance, totalEarnedOf, c8DB, c8User]
  norm_num

/-- Witness for the create-then-reject round trip on `w7DB`: requesting
120 out of balance 150 and rejecting the fresh withdrawal restores the
balance. -/
theorem c7_witness :
    balanceOf (update_withdrawal_status w7After 1 "rejected" none 9) 100
      = balanceOf w7DB 100 := by
  have hcr : create_withdrawal w7DB 100 120 "bKash" "017" = some (true, w7After) := by
    simp [create_withdrawal, w7DB, w7User, w7After, sett0, List.find?]
    norm_num
  have h := c7_reject_restores_balance w7DB 100 120 "bKash" "017" none 9 w7User w7After
    (by simp [w7DB, w7User]) (by simp [w7DB]) hcr
  simpa [w7DB] using h

/-- C8 (amended): `update_balance` on an existing non-banned account
reports success and adds the delta to both `balance` and
`total_earned`, for non-positive deltas as well — `total_earned`
changes by exactly the delta instead of staying unchanged. -/
theorem c8_update_balance_adds_delta_to_total_earned
    (s : DB) (tid : Int) (d : Amount) (u : User)
    (hu : s.users.filter (fun v => v.telegram_id == tid) = [u])
    (hb : u.is_banned = false) :
    (update_balance s tid d).1 = true ∧
    totalEarnedOf (update_balance s tid d).2 tid = u.total_earned + d ∧
    balanceOf (update_balance s tid d).2 tid = u.balance + d := by
  have hm0 : u ∈ s.users.filter (fun v => v.telegram_id == tid) := by
    rw [hu]; exact List.mem_cons_self u []
  have hm : u ∈ s.users := (List.mem_filter.mp hm0).1
  have hpu : (u.telegram_id == tid) = true := (List.mem_filter.mp hm0).2
  have hcond : (u.telegram_id == tid && !u.is_banned) = true := by simp [hpu, hb]
  have hg : ∀ v : User, (((fun v : User => if v.telegram_id == tid && !v.is_banned then
      { v with balance := v.balance + d, total_earned := v.total_earned + d }
      else v) v).telegram_id == tid) = (v.telegram_id == tid) := by
    intro v; by_cases h : (v.telegram_id == tid && !v.is_banned) = true <;> simp [h]
  have hpu' : u.telegram_id = tid := by simpa using hpu
  refine ⟨List.any_eq_true.mpr ⟨u, hm, hcond⟩, ?_, ?_⟩
  · simp only [update_balance, totalEarnedOf]
    rw [filter_map_comm _ _ hg, hu]
    simp [hpu', hb]
  · simp only [update_balance, balanceOf]
    rw [filter_map_comm _ _ hg, hu]
    simp [hpu', hb]

/-- Witness for the delta-application theorem: delta −4 on `w8DB`. -/
theorem c8_witness :
    (update_balance w8DB 100 (-4)).1 = true ∧
    totalEarnedOf (update_balance w8DB 100 (-4)).2 100 = w8User.total_earned + (-4) ∧
    balanceOf (update_balance w8DB 100 (-4)).2 100 = w8User.balance + (-4) :=
  c8_update_balance_adds_delta_to_total_earned w8DB 100 (-4) w8User
    (by simp [w8DB, w8User]) (by rfl)

/-- C9: with a unique resolving referrer, the first registration of a
new account reports success and credits the referrer once; re-issuing
the registration call afterwards hits the duplicate account row and
returns failure with the state (hence the referrer's balance and the
earning trail) unchanged, so the bonus is applied exactly once. -/
theorem c9_duplicate_retry_does_not_recredit
    (s : DB) (tid : Int) (un un2 rc rc2 : String) (r : Int) (a : User)
    (ha : s.users.filter (fun v => v.telegram_id == r) = [a])
    (hfresh : s.users.any (fun v => v.telegram_id == tid || v.referral_code == rc) = false)
    (hr0 : r ≠ 0) (hrt : r ≠ tid) :
    (register_user s tid un (some r) rc).1 = true ∧
    balanceOf (register_user s tid un (some r) rc).2 r
      = balanceOf s r + s.settings.referral_bonus ∧
    register_user (register_user s tid un (some r) rc).2 tid un2 (some r) rc2
      = (false, (register_user s tid un (some r) rc).2) := by
  have hcred := register_user_credits s tid un rc r a ha hfresh hr0 hrt
  refine ⟨hcred.1, hcred.2.1, ?_⟩
  have hr0' : (r == 0) = false := by simpa using hr0
  have hrt' : (tid == r) = false := by simpa using Ne.symm hrt
  have hfind := find?_of_filter_eq_single _ _ _ ha
  rw [register_user_referred_eq s tid un rc r a hfresh hr0' hfind]
  have hany : ((s.users ++
      [({ id := s.next_user_id, telegram_id := tid, username := un,
          referral_code := rc, referred_by := some r, balance := 0,
          total_earned := 0, total_withdrawn := 0, is_banned := false } : User)]).map
      (fun u : User => if u.telegram_id == r then
        { u with
            balance := u.balance + s.settings.referral_bonus,
            total_earned := u.total_earned + s.settings.referral_bonus }
      else u)).any (fun v => v.telegram_id == tid || v.referral_code == rc2) = true := by
    apply List.any_eq_true.mpr
    refine ⟨_, List.mem_map_of_mem _ (List.mem_append_right _ (List.mem_cons_self _ _)), ?_⟩
    simp [hrt']
  exact register_user_duplicate _ _ _ _ _ hany

/-- Witness for the exactly-once referral credit: telegram id 20 is
registered under referrer 9, then the identical registration is
retried. -/
theorem c9_witness :
    (register_user w9DB 20 "b" (some 9) "RCB9").1 = true ∧
    balanceOf (register_user w9DB 20 "b" (some 9) "RCB9").2 9
      = balanceOf w9DB 9 + w9DB.settings.referral_bonus ∧
    register_user (register_user w9DB 20 "b" (some 9) "RCB9").2 20 "b2" (some 9) "RCB9b"
      = (false, (register_user w9DB 20 "b" (some 9) "RCB9").2) :=
  c9_duplicate_retry_does_not_recredit w9DB 20 "b" "b2" "RCB9" "RCB9b" 9 w9Referrer
    (by simp [w9DB, w9Referrer]) (by simp [w9DB, w9Referrer]) (by decide) (by decide)

/-- C10: `get_referral_stats` returns `{total := 0, active := 0,
earnings := 0}` for an external id with no account row — not a
not-found error — and the same record for a registered account that no
row references as referrer and that owns no `referral` earnings. -/
theorem c10_referral_stats_zero (s : DB) (tid : Int) :
    (s.users.find? (fun v => v.telegram_id == tid) = none →
      get_referral_stats s tid = { total := 0, active := 0, earnings := 0 }) ∧
    (∀ u, s.users.find? (fun v => v.telegram_id == tid) = some u →
      s.users.filter (fun v => v.referred_by == some (Int.ofNat u.id)) = [] →
      s.earnings.filter (fun e => e.user_id == u.id && e.type == "referral") = [] →
      get_referral_stats s tid = { total := 0, active := 0, earnings := 0 }) := by
  constructor
  · intro h
    simp [get_referral_stats, h]
  · intro u hu htot hearn
    have hactive : s.users.filter (fun v =>
        v.referred_by == some (Int.ofNat u.id) &&
          s.earnings.any (fun e => e.user_id == v.id)) = [] := by
      apply List.filter_eq_nil_iff.mpr
      intro v hv
      have h1 := List.filter_eq_nil_iff.mp htot v hv
      simp only [Bool.and_eq_true]
      rintro ⟨hc, -⟩
      exact h1 hc
    simp only [get_referral_stats, hu, htot, hactive, hearn]
    simp

/-- Witness for the referral-stats theorem: telegram id 5 has no account
in `w10DB`, and the registered account 100 has no referrals and no
referral earnings; both yield the all-zero record. -/
theorem c10_witness :
    get_referral_stats w10DB 5 = { total := 0, active := 0, earnings := 0 } ∧
    get_referral_stats w10DB 100 = { total := 0, active := 0, earnings := 0 } := by
  refine ⟨(c10_referral_stats_zero w10DB 5).1 ?_,
    (c10_referral_stats_zero w10DB 100).2 w10User ?_ ?_ ?_⟩
  · simp [w10DB, w10User, List.find?]
  · simp [w10DB, w10User, List.find?]
  · simp [w10DB, w10User]
  · simp [w10DB]

end NewEarn
